import Mathlib

/- Shallow embedding of src/cell_type.py: the cell-cycle state machine of the
cells_abm repository.  Volumes, thresholds and substance levels are modelled
over the rationals; phase names are the strings the source stores in
self.current_phase; handlers that can raise a Python exception return
Except (Cell × String) Cell, where the Cell component of an error is the
object state at the point the exception is raised (the mutations already
performed are kept, as in CPython). -/

namespace CellsAbm

/-- Modelled from the spec: the cell-body collaborator (cell_body.py is not
under src/).  Section 6 of the spec declares getSubstanceLevel(name),
isContactInhibited() and changeVolume(newVolume); the source refers to the
volume setter both as change_vol (line 109) and change_volume (line 136), and
both are modelled as the single spec operation. -/
structure CellBody where
  substances : String → ℚ
  contact_inhibited : Bool
  vol : ℚ

def CellBody.get_substance_level (b : CellBody) (name : String) : ℚ :=
  b.substances name

def CellBody.is_contact_inhibited (b : CellBody) : Bool :=
  b.contact_inhibited

def CellBody.change_vol (b : CellBody) (v : ℚ) : CellBody :=
  { b with vol := v }

def CellBody.change_volume (b : CellBody) (v : ℚ) : CellBody :=
  { b with vol := v }

/-- Mutable state of one cell instance (AbstractCellType.__init__, lines
30-40), together with the per-type constants the handlers read
(does_age, lifespan on lines 27-28; the two thresholds GenericCell declares
on lines 89-90). -/
structure Cell where
  cell_body : CellBody
  seed_vol : ℚ
  current_vol : ℚ
  cyc_len : Int
  g1_len : Int
  current_phase : String
  current_cyc_iteration : Int
  current_age : Int
  is_dead : Bool
  does_age : Bool
  lifespan : Int
  g0_oxy_threshold : ℚ
  hypoxia_theshold : ℚ

/-- Truncation toward zero, the behaviour of Python int() on a float; Int.div
is truncated division and the denominator of a rational is positive. -/
def ratTruncate (q : ℚ) : Int :=
  q.num.tdiv q.den

/-- The sampler get_g1_len (lines 45-47): int() of a normal draw with mean
cyc_len / 2 and scale mean / 10.  The mean and scale only shape the
distribution; the draw itself ranges over the whole real line, so the function
is modelled on the drawn value.  No clamping or rejection is applied to the
truncated result. -/
def get_g1_len (cyc_len : Int) (draw : ℚ) : Int :=
  ratTruncate draw

/-- AbstractCellType.get_cyc_len (lines 42-43) is declared with the two
parameters (cls, self); the bound call self.get_cyc_len() supplies one
argument for two required parameters, so every invocation raises TypeError
before the normal draw is taken. -/
def get_cyc_len_call : Except String Int :=
  Except.error ("TypeError: get_cyc_len missing 1 required positional argument: self")

/-- Line 127 tests self.cell_body.is_contact_inhibited without parentheses:
the tested value is the bound-method object itself, and in Python a method
object is always truthy, so this disjunct of the S-phase arrest condition is
constantly true (unlike lines 112 and 118, which do call the predicate). -/
def contact_inhibited_attribute_truthiness : Bool := true

/-- g1_phase (lines 105-115): increment the iteration counter (line 106), add
seed_vol / g1_len to the volume and push it to the cell body (lines 108-109),
then at iteration == g1_len (line 111) arrest to G0 under low oxygen or
contact inhibition (line 112-113) and otherwise move to S (line 115).  When
g1_len = 0 the division on line 108 raises ZeroDivisionError after the
iteration increment and before the volume and phase updates. -/
def g1_phase (c : Cell) : Except (Cell × String) Cell :=
  if c.g1_len = 0 then
    Except.error ({ c with current_cyc_iteration := c.current_cyc_iteration + 1 },
      "ZeroDivisionError: float division by zero")
  else
    Except.ok { c with
      current_cyc_iteration := c.current_cyc_iteration + 1,
      current_vol := c.current_vol + c.seed_vol / (c.g1_len : ℚ),
      cell_body := CellBody.change_vol c.cell_body (c.current_vol + c.seed_vol / (c.g1_len : ℚ)),
      current_phase :=
        if c.current_cyc_iteration + 1 = c.g1_len then
          if c.cell_body.get_substance_level ("oxygen") < c.g0_oxy_threshold
              ∨ c.cell_body.is_contact_inhibited = true then "G0" else "S"
        else c.current_phase }

/-- g0_phase (lines 117-122): when not contact inhibited and oxygen is
strictly above the threshold, move to S if the frozen iteration counter equals
g1_len and to M otherwise; in every other case the state is untouched. -/
def g0_phase (c : Cell) : Cell :=
  if c.cell_body.is_contact_inhibited = false
      ∧ c.g0_oxy_threshold < c.cell_body.get_substance_level ("oxygen") then
    if c.current_cyc_iteration = c.g1_len then
      { c with current_phase := "S" }
    else
      { c with current_phase := "M" }
  else c

/-- s_phase (lines 124-130): increment the iteration counter; at iteration ==
cyc_len - 1 the arrest condition on line 127 is low oxygen OR the untested
bound-method object (constantly truthy), so the G0 branch is always taken at
the boundary and the M branch on line 130 is unreachable. -/
def s_phase (c : Cell) : Cell :=
  if c.current_cyc_iteration + 1 = c.cyc_len - 1 then
    if c.cell_body.get_substance_level ("oxygen") < c.g0_oxy_threshold
        ∨ contact_inhibited_attribute_truthiness = true then
      { c with current_cyc_iteration := c.current_cyc_iteration + 1, current_phase := "G0" }
    else
      { c with current_cyc_iteration := c.current_cyc_iteration + 1, current_phase := "M" }
  else { c with current_cyc_iteration := c.current_cyc_iteration + 1 }

/-- m_phase (lines 135-144): line 136 pushes seed_vol to the cell body (the
field self.current_vol is not assigned), line 138 resets the iteration
counter, and line 139 calls self.get_cyc_len(), which raises TypeError
(get_cyc_len is declared with parameters (cls, self), see get_cyc_len_call),
so lines 139-144 - the resampling of cyc_len and g1_len, the aging increment
and the lifespan death check - never complete on any input.  The error state
carries the mutations of lines 136 and 138. -/
def m_phase (c : Cell) : Except (Cell × String) Cell :=
  match get_cyc_len_call with
  | Except.error msg =>
      Except.error
        ({ c with
            cell_body := CellBody.change_volume c.cell_body c.seed_vol,
            current_cyc_iteration := 0 },
         msg)
  | Except.ok n =>
      Except.ok
        { c with
            cell_body := CellBody.change_volume c.cell_body c.seed_vol,
            current_cyc_iteration := 0,
            cyc_len := n }

/-- do_cell_cycle (lines 95-103): dispatch on current_phase; any phase other
than G0, G1 and S (in particular both G2 and M) falls to the else branch and
runs m_phase. -/
def do_cell_cycle (c : Cell) : Except (Cell × String) Cell :=
  if c.current_phase = "G0" then Except.ok (g0_phase c)
  else if c.current_phase = "G1" then g1_phase c
  else if c.current_phase = "S" then Except.ok (s_phase c)
  else m_phase c

/-- hypoxic_death (lines 149-151): set is_dead when the oxygen level read
from the cell body is strictly below the hypoxia threshold; otherwise the
state is untouched. -/
def hypoxic_death (c : Cell) : Cell :=
  if c.cell_body.get_substance_level ("oxygen") < c.hypoxia_theshold then
    { c with is_dead := true }
  else c

/-- Iterated ticks: run do_cell_cycle n times, propagating a raised
exception. -/
def run_ticks : Nat → Cell → Except (Cell × String) Cell
  | 0, c => Except.ok c
  | Nat.succ n, c =>
    match do_cell_cycle c with
    | Except.error e => Except.error e
    | Except.ok c1 => run_ticks n c1

/-- The five required class attributes listed by CellTypeAttributesMeta
(lines 7-13). -/
def cell_type_attributes : List String :=
  ["seed_radius", "mean_cyc_len", "std_dev_cyc_len", "does_age", "lifespan"]

/-- CellTypeAttributesMeta.__call__ (lines 15-20): first build the instance
by running the initializer (any exception it raises propagates), then check
the five required attributes on the result, raising NotImplementedError
naming the first missing one. -/
def meta_call (init : Except String Unit) (attrs : List String) : Except String Unit :=
  match init with
  | Except.error e => Except.error e
  | Except.ok _ =>
    match cell_type_attributes.find? (fun a => ! attrs.contains a) with
    | some a => Except.error ("NotImplementedError: Missing required class attribute: " ++ a)
    | none => Except.ok ()

/-- Class attributes defined on GenericCell (lines 83-90): all five required
constants plus the two thresholds. -/
def generic_cell_attrs : List String :=
  ["seed_radius", "mean_cyc_len", "std_dev_cyc_len", "does_age", "lifespan",
   "g0_oxy_threshold", "hypoxia_theshold"]

/-- GenericCell.__init__ (lines 92-93) calls super().__init__() with no
arguments beyond the bound receiver, but AbstractCellType.__init__ (line 30)
is declared with the three parameters (cls, self, pos); two required
positional parameters are left unfilled, so CPython raises TypeError before
the initializer body runs. -/
def generic_cell_init : Except String Unit :=
  Except.error ("TypeError: init missing 2 required positional arguments: self and pos")

/-- Construction of GenericCell(): the metaclass call wrapping the failing
initializer. -/
def construct_generic_cell : Except String Unit :=
  meta_call generic_cell_init generic_cell_attrs

/-- A cell body under favourable conditions: oxygen level 2, no contact
inhibition. -/
def bodyGood : CellBody :=
  { substances := fun _ => 2, contact_inhibited := false, vol := 6 }

/-- Concrete S-phase cell: about to hit the S exit boundary (incremented
iteration 23 = cyc_len - 1) under full oxygen and no contact inhibition. -/
def cS1 : Cell :=
  { cell_body := bodyGood, seed_vol := 3, current_vol := 6, cyc_len := 24,
    g1_len := 12, current_phase := "S", current_cyc_iteration := 22,
    current_age := 0, is_dead := false, does_age := true, lifespan := 4,
    g0_oxy_threshold := 1, hypoxia_theshold := 1 }

/-- Concrete live cell sitting in phase M. -/
def cM2 : Cell :=
  { cell_body := bodyGood, seed_vol := 3, current_vol := 6, cyc_len := 24,
    g1_len := 12, current_phase := "M", current_cyc_iteration := 23,
    current_age := 1, is_dead := false, does_age := true, lifespan := 4,
    g0_oxy_threshold := 1, hypoxia_theshold := 1 }

/-- Concrete cell entering M with its volume fully grown to twice the seed
volume. -/
def cM3 : Cell :=
  { cell_body := bodyGood, seed_vol := 3, current_vol := 6, cyc_len := 24,
    g1_len := 12, current_phase := "M", current_cyc_iteration := 23,
    current_age := 1, is_dead := false, does_age := true, lifespan := 4,
    g0_oxy_threshold := 1, hypoxia_theshold := 1 }

/-- Concrete aging cell with lifespan 4 and current age 4, executing what the
claim counts as its fifth division event. -/
def cM7 : Cell :=
  { cell_body := bodyGood, seed_vol := 3, current_vol := 6, cyc_len := 24,
    g1_len := 12, current_phase := "M", current_cyc_iteration := 23,
    current_age := 4, is_dead := false, does_age := true, lifespan := 4,
    g0_oxy_threshold := 1, hypoxia_theshold := 1 }

/-- C1: the claim says a cell in S whose incremented iteration equals
cyc_len - 1 moves to M when oxygen is at or above the threshold and the cell
is not contact-inhibited.  On the code this fails: line 127 tests the
untested bound method (always truthy), so even with oxygen 2 >= 1 and
is_contact_inhibited() = false the tick sends cS1 to G0, never to M, and the
arrest condition is not evaluated the way the G1 boundary evaluates it. -/
theorem s_phase_never_reaches_M :
    cS1.current_cyc_iteration + 1 = cS1.cyc_len - 1 ∧
    cS1.g0_oxy_threshold ≤ cS1.cell_body.get_substance_level ("oxygen") ∧
    cS1.cell_body.is_contact_inhibited = false ∧
    do_cell_cycle cS1 = Except.ok (s_phase cS1) ∧
    (s_phase cS1).current_phase = "G0" :=
  ⟨by decide, by decide, rfl, rfl, rfl⟩

/-- C2: the claim says a live cell in M is handled by the G1 handler on the
next tick.  On the code this fails: m_phase raises TypeError at
self.get_cyc_len() and never assigns current_phase, so after its M tick the
live cell cM2 is still in phase M (and do_cell_cycle would dispatch it to
m_phase again, not to g1_phase). -/
theorem m_tick_stays_in_M :
    ∃ p : Cell × String, do_cell_cycle cM2 = Except.error p ∧
      p.1.current_phase = "M" ∧ p.1.is_dead = false :=
  ⟨_, rfl, rfl, rfl⟩

/-- C3: the claim says that after m_phase, current_vol equals seed_vol,
the iteration counter is 0 and both lengths are freshly resampled.  On the
code this fails: m_phase pushes seed_vol to the cell body but never assigns
self.current_vol, and the TypeError raised at self.get_cyc_len() (line 139)
aborts the handler before either length is resampled; on cM3 the volume is
still 6 = 2 x seed_vol and both lengths keep their old values (only the
iteration reset of line 138 happened). -/
theorem m_phase_reset_incomplete :
    ∃ p : Cell × String, m_phase cM3 = Except.error p ∧
      p.1.current_vol = 6 ∧ p.1.seed_vol = 3 ∧
      p.1.current_cyc_iteration = 0 ∧
      p.1.cyc_len = 24 ∧ p.1.g1_len = 12 ∧
      p.1.cell_body.vol = 3 :=
  ⟨_, rfl, rfl, rfl, rfl, rfl, rfl, rfl⟩

/-- C4: the claim says a cell type supplying all five required constants
always constructs successfully.  On the code this fails: GenericCell defines
all five constants, yet GenericCell() raises TypeError, because
AbstractCellType.__init__ is declared with the parameters (cls, self, pos)
and super().__init__() leaves two of them unfilled; the exception propagates
out of the metaclass before the completeness check runs. -/
theorem construct_generic_cell_fails :
    cell_type_attributes.all (fun a => generic_cell_attrs.contains a) = true ∧
    construct_generic_cell =
      Except.error ("TypeError: init missing 2 required positional arguments: self and pos") :=
  ⟨rfl, rfl⟩

/-- Repeated executions of the M-phase handler, as driven by an external
loop that catches the raised TypeError and calls again: the state after each
execution is the error payload, i.e. the mutations of lines 136 and 138 kept
on the object when the exception propagates. -/
def m_execs : Nat → Cell → Cell
  | 0, c => c
  | Nat.succ k, c =>
    match m_phase c with
    | Except.error p => m_execs k p.1
    | Except.ok c1 => m_execs k c1

/-- Any number of M-phase executions leaves the death flag, the age counter,
the aging flag and the lifespan untouched: the TypeError raised at line 139
precedes the aging and death lines 141-144 on every execution. -/
theorem m_execs_preserve_age_and_death (k : Nat) :
    ∀ c : Cell, (m_execs k c).is_dead = c.is_dead ∧
      (m_execs k c).current_age = c.current_age ∧
      (m_execs k c).does_age = c.does_age ∧
      (m_execs k c).lifespan = c.lifespan := by
  induction k with
  | zero =>
    intro c
    exact ⟨rfl, rfl, rfl, rfl⟩
  | succ k ih =>
    intro c
    have hstep : m_execs (k + 1) c = m_execs k ({ c with
        cell_body := CellBody.change_volume c.cell_body c.seed_vol,
        current_cyc_iteration := 0 }) := rfl
    rw [hstep]
    exact ih _

/-- C7: the claim says an aging cell with lifespan N that starts at age 0
has is_dead true immediately after its (N+1)-th M-phase execution and false
after its N-th.  On the code the lifespan death path is unreachable: m_phase
raises TypeError at self.get_cyc_len() (line 139) before the aging and death
lines 141-144, so no number of M-phase executions ever increments
current_age or sets is_dead - in particular, for every lifespan N and every
live aging cell starting at age 0 the (N+1)-th execution still leaves
is_dead false.  The final conjuncts evaluate one execution on the concrete
aging cell cM7 (lifespan 4, current_age 4, performing what should be its
fatal fifth division). -/
theorem m_phase_lifespan_death_unreachable :
    (∀ (N : Nat) (c : Cell), c.does_age = true → c.current_age = 0 →
      c.lifespan = (N : Int) → c.is_dead = false →
      (m_execs N c).is_dead = false ∧ (m_execs (N + 1) c).is_dead = false ∧
      (m_execs (N + 1) c).current_age = 0) ∧
    cM7.does_age = true ∧ cM7.lifespan = 4 ∧ cM7.current_age = 4 ∧
    (∃ p : Cell × String, m_phase cM7 = Except.error p ∧
      p.1.is_dead = false ∧ p.1.current_age = 4) := by
  refine ⟨?_, rfl, rfl, rfl, _, rfl, rfl, rfl⟩
  intro N c hage hzero hlife hlive
  obtain ⟨hd1, ha1, _, _⟩ := m_execs_preserve_age_and_death N c
  obtain ⟨hd2, ha2, _, _⟩ := m_execs_preserve_age_and_death (N + 1) c
  exact ⟨hd1.trans hlive, hd2.trans hlive, ha2.trans hzero⟩

/-- Witness for the quantified part of the C7 refutation at the concrete
live aging cell cM7Fresh with lifespan 4 and age 0: even the fifth M-phase
execution leaves the cell alive at age 0. -/
def cM7Fresh : Cell :=
  { cell_body := bodyGood, seed_vol := 3, current_vol := 6, cyc_len := 24,
    g1_len := 12, current_phase := "M", current_cyc_iteration := 23,
    current_age := 0, is_dead := false, does_age := true, lifespan := 4,
    g0_oxy_threshold := 1, hypoxia_theshold := 1 }

/-- Closed instance of m_phase_lifespan_death_unreachable at cM7Fresh. -/
theorem m_phase_lifespan_death_unreachable_witness :
    (m_execs 4 cM7Fresh).is_dead = false ∧
    (m_execs 5 cM7Fresh).is_dead = false ∧
    (m_execs 5 cM7Fresh).current_age = 0 :=
  m_phase_lifespan_death_unreachable.1 4 cM7Fresh rfl rfl rfl rfl

/-- C5: a G1 tick whose incremented iteration counter reaches g1_len arrests
to G0 under low oxygen or contact inhibition and advances to S under
sufficient oxygen without contact inhibition; any other G1 tick leaves the
phase at G1. -/
theorem g1_boundary (c : Cell) (hp : c.current_phase = "G1") (hL : c.g1_len ≠ 0) :
    ∃ c', do_cell_cycle c = Except.ok c' ∧
      ((c.current_cyc_iteration + 1 = c.g1_len →
          ((c.cell_body.get_substance_level ("oxygen") < c.g0_oxy_threshold
              ∨ c.cell_body.is_contact_inhibited = true) → c'.current_phase = "G0") ∧
          (c.g0_oxy_threshold ≤ c.cell_body.get_substance_level ("oxygen")
              ∧ c.cell_body.is_contact_inhibited = false → c'.current_phase = "S")) ∧
        (c.current_cyc_iteration + 1 ≠ c.g1_len → c'.current_phase = "G1")) := by
  have hd : do_cell_cycle c = g1_phase c := by
    simp [do_cell_cycle, hp]
  rw [hd]
  unfold g1_phase
  rw [if_neg hL]
  refine ⟨_, rfl, ⟨?_, ?_⟩⟩
  · intro hit
    constructor
    · intro hlow
      simp only [hit, if_pos rfl]
      rw [if_pos hlow]
      simp
    · rintro ⟨hox, hni⟩
      have hno : ¬ (c.cell_body.get_substance_level ("oxygen") < c.g0_oxy_threshold
          ∨ c.cell_body.is_contact_inhibited = true) := by
        rintro (h | h)
        · exact absurd h (not_lt.mpr hox)
        · rw [hni] at h
          exact Bool.false_ne_true h
      simp only [hit, if_pos rfl]
      rw [if_neg hno]
      simp
  · intro hne
    simp only [if_neg hne]
    exact hp

/-- Concrete G1 cell one tick away from the G1 exit boundary, with oxygen 2
above the threshold 1 and no contact inhibition. -/
def cG5 : Cell :=
  { cell_body := bodyGood, seed_vol := 3, current_vol := 6, cyc_len := 24,
    g1_len := 12, current_phase := "G1", current_cyc_iteration := 11,
    current_age := 0, is_dead := false, does_age := true, lifespan := 4,
    g0_oxy_threshold := 1, hypoxia_theshold := 1 }

/-- Witness for C5 at the concrete cell cG5. -/
theorem g1_boundary_witness :
    ∃ c', do_cell_cycle cG5 = Except.ok c' ∧
      ((cG5.current_cyc_iteration + 1 = cG5.g1_len →
          ((cG5.cell_body.get_substance_level ("oxygen") < cG5.g0_oxy_threshold
              ∨ cG5.cell_body.is_contact_inhibited = true) → c'.current_phase = "G0") ∧
          (cG5.g0_oxy_threshold ≤ cG5.cell_body.get_substance_level ("oxygen")
              ∧ cG5.cell_body.is_contact_inhibited = false → c'.current_phase = "S")) ∧
        (cG5.current_cyc_iteration + 1 ≠ cG5.g1_len → c'.current_phase = "G1")) :=
  g1_boundary cG5 rfl (by decide)

/-- C6: a G0 tick under no contact inhibition and oxygen strictly above the
threshold resumes to S when the frozen iteration counter equals g1_len and to
M otherwise; under contact inhibition or oxygen at or below the threshold the
tick leaves the whole state, in particular phase, iteration counter and
volume, unchanged. -/
theorem g0_boundary (c : Cell) (hp : c.current_phase = "G0") :
    do_cell_cycle c = Except.ok (g0_phase c) ∧
    ((c.cell_body.is_contact_inhibited = false
        ∧ c.g0_oxy_threshold < c.cell_body.get_substance_level ("oxygen")) →
      (g0_phase c).current_phase =
        (if c.current_cyc_iteration = c.g1_len then "S" else "M")) ∧
    ((c.cell_body.is_contact_inhibited = true
        ∨ c.cell_body.get_substance_level ("oxygen") ≤ c.g0_oxy_threshold) →
      g0_phase c = c) := by
  refine ⟨by simp [do_cell_cycle, hp], ?_, ?_⟩
  · intro h
    unfold g0_phase
    rw [if_pos h]
    split_ifs with h2 <;> rfl
  · intro h
    unfold g0_phase
    rw [if_neg ?_]
    rintro ⟨h1, h2⟩
    rcases h with h | h
    · rw [h1] at h
      exact Bool.false_ne_true h
    · exact absurd h2 (not_lt.mpr h)

/-- Concrete G0 cell whose frozen iteration counter 23 differs from g1_len
12, ticked under oxygen 2 above the threshold 1 and no contact inhibition. -/
def cG0 : Cell :=
  { cell_body := bodyGood, seed_vol := 3, current_vol := 6, cyc_len := 24,
    g1_len := 12, current_phase := "G0", current_cyc_iteration := 23,
    current_age := 0, is_dead := false, does_age := true, lifespan := 4,
    g0_oxy_threshold := 1, hypoxia_theshold := 1 }

/-- Witness for C6 at the concrete cell cG0: conditions cleared and the
iteration counter off the boundary, so the tick resumes at M. -/
theorem g0_boundary_witness : (g0_phase cG0).current_phase = "M" :=
  (g0_boundary cG0 rfl).2.1 ⟨rfl, by decide⟩

/-- C8: hypoxic_death sets is_dead exactly when the oxygen level read from
the cell body is strictly below the hypoxia threshold, changing nothing else;
with oxygen at or above the threshold the whole state is untouched.  The
statement quantifies over every cell, hence over every phase and iteration
count. -/
theorem hypoxic_death_spec (c : Cell) :
    (c.cell_body.get_substance_level ("oxygen") < c.hypoxia_theshold →
      hypoxic_death c = { c with is_dead := true }) ∧
    (c.hypoxia_theshold ≤ c.cell_body.get_substance_level ("oxygen") →
      hypoxic_death c = c) := by
  constructor
  · intro h
    unfold hypoxic_death
    rw [if_pos h]
  · intro h
    unfold hypoxic_death
    rw [if_neg (not_lt.mpr h)]

/-- A cell body with no oxygen. -/
def bodyLow : CellBody :=
  { substances := fun _ => 0, contact_inhibited := false, vol := 6 }

/-- Concrete cell in phase S starved of oxygen (level 0, threshold 1). -/
def cH8low : Cell :=
  { cell_body := bodyLow, seed_vol := 3, current_vol := 6, cyc_len := 24,
    g1_len := 12, current_phase := "S", current_cyc_iteration := 7,
    current_age := 0, is_dead := false, does_age := true, lifespan := 4,
    g0_oxy_threshold := 1, hypoxia_theshold := 1 }

/-- Concrete well-oxygenated cell (level 2, threshold 1). -/
def cH8ok : Cell :=
  { cell_body := bodyGood, seed_vol := 3, current_vol := 6, cyc_len := 24,
    g1_len := 12, current_phase := "G1", current_cyc_iteration := 3,
    current_age := 0, is_dead := false, does_age := true, lifespan := 4,
    g0_oxy_threshold := 1, hypoxia_theshold := 1 }

/-- Witness for C8: the starved cell is marked dead with nothing else
changed, the oxygenated cell is untouched. -/
theorem hypoxic_death_spec_witness :
    hypoxic_death cH8low = { cH8low with is_dead := true } ∧
    hypoxic_death cH8ok = cH8ok :=
  ⟨(hypoxic_death_spec cH8low).1 (by decide),
   (hypoxic_death_spec cH8ok).2 (by decide)⟩

/-- One successful tick prefixes an iterated run. -/
theorem run_ticks_succ_ok (n : Nat) (c c1 : Cell)
    (h : do_cell_cycle c = Except.ok c1) :
    run_ticks (n + 1) c = run_ticks n c1 := by
  simp [run_ticks, h]

/-- Invariant of consecutive G1 ticks: while the incremented iteration
counter stays at or below g1_len, every tick succeeds and each one adds
seed_vol / g1_len to the volume. -/
theorem run_ticks_g1_aux (k : Nat) :
    ∀ c : Cell, c.current_phase = "G1" → c.g1_len ≠ 0 →
      (k : Int) ≤ c.g1_len - c.current_cyc_iteration →
      ∃ c', run_ticks k c = Except.ok c' ∧
        c'.current_vol = c.current_vol + (k : ℚ) * (c.seed_vol / (c.g1_len : ℚ)) := by
  induction k with
  | zero =>
    intro c hp hL hk
    exact ⟨c, rfl, by push_cast; ring⟩
  | succ k ih =>
    intro c hp hL hk
    set c1 : Cell := { c with
        current_cyc_iteration := c.current_cyc_iteration + 1,
        current_vol := c.current_vol + c.seed_vol / (c.g1_len : ℚ),
        cell_body := CellBody.change_vol c.cell_body
          (c.current_vol + c.seed_vol / (c.g1_len : ℚ)),
        current_phase :=
          if c.current_cyc_iteration + 1 = c.g1_len then
            if c.cell_body.get_substance_level ("oxygen") < c.g0_oxy_threshold
                ∨ c.cell_body.is_contact_inhibited = true then "G0" else "S"
          else c.current_phase } with hc1
    have hg : g1_phase c = Except.ok c1 := by
      unfold g1_phase
      rw [if_neg hL]
    have hd : do_cell_cycle c = g1_phase c := by
      simp [do_cell_cycle, hp]
    have hstep : run_ticks (k + 1) c = run_ticks k c1 :=
      run_ticks_succ_ok k c c1 (hd.trans hg)
    have hv1 : c1.current_vol = c.current_vol + c.seed_vol / (c.g1_len : ℚ) := rfl
    have hs1 : c1.seed_vol = c.seed_vol := rfl
    have hlen1 : c1.g1_len = c.g1_len := rfl
    have hit1 : c1.current_cyc_iteration = c.current_cyc_iteration + 1 := rfl
    by_cases hit : c.current_cyc_iteration + 1 = c.g1_len
    · have hk0 : k = 0 := by omega
      subst hk0
      refine ⟨c1, by rw [hstep]; rfl, ?_⟩
      rw [hv1]
      push_cast
      ring
    · have hphase1 : c1.current_phase = "G1" := by
        have hpr : c1.current_phase =
            (if c.current_cyc_iteration + 1 = c.g1_len then
              if c.cell_body.get_substance_level ("oxygen") < c.g0_oxy_threshold
                  ∨ c.cell_body.is_contact_inhibited = true then "G0" else "S"
            else c.current_phase) := rfl
        rw [hpr, if_neg hit]
        exact hp
      have hbound : (k : Int) ≤ c1.g1_len - c1.current_cyc_iteration := by
        rw [hlen1, hit1]
        omega
      obtain ⟨c2, hrun, hvol⟩ := ih c1 hphase1 (hlen1 ▸ hL) hbound
      refine ⟨c2, ?_, ?_⟩
      · rw [hstep]
        exact hrun
      · rw [hvol, hv1, hs1, hlen1]
        push_cast
        ring

/-- C9: starting in G1 with the iteration counter at 0, the volume at the
seed volume and g1_len = L > 0, L consecutive ticks all succeed and leave the
volume at exactly twice the seed volume (the increments seed_vol / L summed L
times, exact over the rationals). -/
theorem g1_growth (L : Nat) (c : Cell) (hL : 0 < L)
    (hp : c.current_phase = "G1") (hlen : c.g1_len = (L : Int))
    (hit : c.current_cyc_iteration = 0) (hv : c.current_vol = c.seed_vol) :
    ∃ c', run_ticks L c = Except.ok c' ∧ c'.current_vol = 2 * c.seed_vol := by
  have hL0 : c.g1_len ≠ 0 := by
    rw [hlen]
    exact_mod_cast hL.ne'
  obtain ⟨c', hr, hvol⟩ := run_ticks_g1_aux L c hp hL0 (by rw [hlen, hit]; omega)
  refine ⟨c', hr, ?_⟩
  rw [hvol, hv, hlen]
  have hcast : ((L : Int) : ℚ) = (L : ℚ) := by push_cast; ring
  rw [hcast]
  have hLq : (L : ℚ) ≠ 0 := by exact_mod_cast hL.ne'
  field_simp
  ring

/-- Concrete fresh G1 cell with g1_len 2 and volume equal to its seed
volume 3. -/
def cG9 : Cell :=
  { cell_body := bodyGood, seed_vol := 3, current_vol := 3, cyc_len := 5,
    g1_len := 2, current_phase := "G1", current_cyc_iteration := 0,
    current_age := 0, is_dead := false, does_age := true, lifespan := 4,
    g0_oxy_threshold := 1, hypoxia_theshold := 1 }

/-- Witness for C9: two ticks double the volume of cG9. -/
theorem g1_growth_witness :
    ∃ c', run_ticks 2 cG9 = Except.ok c' ∧ c'.current_vol = 2 * cG9.seed_vol :=
  g1_growth 2 cG9 (by decide) rfl rfl rfl rfl

/-- C10: the division seed_vol / g1_len in the G1 handler is unguarded.
With g1_len different from 0 the handler always succeeds and performs its
volume update; with g1_len = 0 it raises ZeroDivisionError with the phase,
volume and death flag untouched (only the iteration increment of line 106
has happened); and the g1-length sampler can return 0, for example on the
strictly positive draw 1/2, with no clamping anywhere. -/
theorem g1_division_unguarded :
    (∀ c : Cell, c.g1_len ≠ 0 → ∃ c', g1_phase c = Except.ok c' ∧
        c'.current_vol = c.current_vol + c.seed_vol / (c.g1_len : ℚ)) ∧
    (∀ c : Cell, c.g1_len = 0 → ∃ p : Cell × String, g1_phase c = Except.error p ∧
        p.1.current_phase = c.current_phase ∧ p.1.current_vol = c.current_vol ∧
        p.1.is_dead = c.is_dead ∧
        p.1.current_cyc_iteration = c.current_cyc_iteration + 1 ∧
        p.2 = "ZeroDivisionError: float division by zero") ∧
    (∃ draw : ℚ, 0 < draw ∧ get_g1_len 24 draw = 0) := by
  refine ⟨?_, ?_, ?_⟩
  · intro c hL
    refine ⟨{ c with
        current_cyc_iteration := c.current_cyc_iteration + 1,
        current_vol := c.current_vol + c.seed_vol / (c.g1_len : ℚ),
        cell_body := CellBody.change_vol c.cell_body
          (c.current_vol + c.seed_vol / (c.g1_len : ℚ)),
        current_phase :=
          if c.current_cyc_iteration + 1 = c.g1_len then
            if c.cell_body.get_substance_level ("oxygen") < c.g0_oxy_threshold
                ∨ c.cell_body.is_contact_inhibited = true then "G0" else "S"
          else c.current_phase }, ?_, rfl⟩
    unfold g1_phase
    rw [if_neg hL]
  · intro c hL
    refine ⟨({ c with current_cyc_iteration := c.current_cyc_iteration + 1 },
        "ZeroDivisionError: float division by zero"), ?_, rfl, rfl, rfl, rfl, rfl⟩
    unfold g1_phase
    rw [if_pos hL]
  · refine ⟨1/2, by norm_num, ?_⟩
    have h1 : (1/2 : ℚ).num = 1 := by norm_num
    have h2 : (1/2 : ℚ).den = 2 := by norm_num
    unfold get_g1_len ratTruncate
    rw [h1, h2]
    decide

/-- Concrete G1 cell with a nonzero g1_len. -/
def cDivOk : Cell :=
  { cell_body := bodyGood, seed_vol := 3, current_vol := 3, cyc_len := 24,
    g1_len := 12, current_phase := "G1", current_cyc_iteration := 0,
    current_age := 0, is_dead := false, does_age := true, lifespan := 4,
    g0_oxy_threshold := 1, hypoxia_theshold := 1 }

/-- Concrete G1 cell holding the degenerate sampled value g1_len = 0. -/
def cDivZero : Cell :=
  { cell_body := bodyGood, seed_vol := 3, current_vol := 3, cyc_len := 24,
    g1_len := 0, current_phase := "G1", current_cyc_iteration := 0,
    current_age := 0, is_dead := false, does_age := true, lifespan := 4,
    g0_oxy_threshold := 1, hypoxia_theshold := 1 }

/-- Witness for C10 at the concrete cells cDivOk and cDivZero. -/
theorem g1_division_unguarded_witness :
    (∃ c', g1_phase cDivOk = Except.ok c' ∧
      c'.current_vol = cDivOk.current_vol + cDivOk.seed_vol / (cDivOk.g1_len : ℚ)) ∧
    (∃ p : Cell × String, g1_phase cDivZero = Except.error p ∧
      p.1.current_phase = cDivZero.current_phase ∧
      p.1.current_vol = cDivZero.current_vol ∧
      p.1.is_dead = cDivZero.is_dead ∧
      p.1.current_cyc_iteration = cDivZero.current_cyc_iteration + 1 ∧
      p.2 = "ZeroDivisionError: float division by zero") :=
  ⟨g1_division_unguarded.1 cDivOk (by decide),
   g1_division_unguarded.2.1 cDivZero rfl⟩

end CellsAbm
